import Mathlib

/-!
Shallow embedding of the shared business-logic core of the Thiccc
workout-tracking application (crate `applications/thiccc/app/shared`):
the domain model (`src/models.rs`), the validating identifier type
(`src/id.rs`), the application state (`src/app/model.rs`), the event
taxonomy (`src/app/events.rs`) and the event reducer
(`src/app/update/*.rs`, `src/app/mod.rs`).

Modelling conventions:
* Rust `f64` is modelled as `ℚ` (exact arithmetic; all plate-catalog
  values and the claims' concrete inputs are exactly representable).
* Rust `i32`/`usize` are modelled as `Int`/`ℕ`.
* `chrono::DateTime<Utc>` is modelled as `Int` (seconds since epoch).
* Nondeterministic inputs of the reducer (`Id::new()` fresh UUIDs,
  `Utc::now()`) are supplied through an explicit `Gen` record; theorems
  quantify over it.
* A JSON payload string is represented by its `serde_json` parse
  outcome (`Except String Workout`): the reducer only ever inspects the
  payload through that parse.
* Effect requests (`Command::request_from_shell`, `render()`) are
  returned as an explicit list of `Effect` values; the serialized
  workout JSON inside a save request is represented by the workout
  itself.
-/

namespace Thiccc

/-! ### `src/id.rs` — the validated identifier type -/

/-- Model of `uuid::Uuid::parse_str` acceptance: a hexadecimal digit. -/
def isHexDig (c : Char) : Bool :=
  c.isDigit || ('a' ≤ c && c ≤ 'f') || ('A' ≤ c && c ≤ 'F')

/-- Hyphenated UUID form `xxxxxxxx-xxxx-xxxx-xxxx-xxxxxxxxxxxx`. -/
def isHyphenatedUuid (cs : List Char) : Bool :=
  cs.length == 36 &&
    (List.range 36).all (fun i =>
      if i == 8 || i == 13 || i == 18 || i == 23 then cs.getD i ' ' == '-'
      else isHexDig (cs.getD i ' '))

/-- Simple UUID form: 32 hex digits, no hyphens. -/
def isSimpleUuid (cs : List Char) : Bool :=
  cs.length == 32 && cs.all isHexDig

/-- Model of `uuid::Uuid::parse_str`: accepts the simple, hyphenated,
braced and URN textual forms. -/
def isValidUuid (s : String) : Bool :=
  let cs := s.toList
  isHyphenatedUuid cs || isSimpleUuid cs ||
    (cs.head? == some (Char.ofNat 123) && cs.getLast? == some (Char.ofNat 125)
      && isHyphenatedUuid (cs.drop 1 |>.dropLast)) ||
    (cs.take 9 == "urn:uuid:".toList && isHyphenatedUuid (cs.drop 9))

/-- `Id` — a validated, opaque unique-identifier wrapper (`struct Id(String)`). -/
structure Id where
  val : String
  deriving DecidableEq, Repr

/-- `Id::from_string`: checked parsing, fails on a malformed UUID.  The
uuid crate's detailed parse-error text is abstracted to a fixed message;
only the `"Invalid UUID: "` prefix is fixed by `id.rs`. -/
def Id.fromString (s : String) : Except String Id :=
  if isValidUuid s then .ok ⟨s⟩ else .error ("Invalid UUID: " ++ "invalid format")

/-! ### `src/models.rs` — domain model -/

inductive ExerciseType where
  | dumbbell | kettlebell | barbell | hexbar | bodyweight | machine | unknown
  deriving DecidableEq, Repr

inductive WeightUnit where
  | kg | lb | bodyweight
  deriving DecidableEq, Repr

inductive SetType where
  | warmUp | working | dropSet | amrap | failure
  deriving DecidableEq, Repr

inductive BodyPartMain where
  | chest | legs | arms | back | calves | shoulders | core | cardio | fullBody | other
  deriving DecidableEq, Repr

structure BodyPart where
  main : BodyPartMain
  detailed : Option (List String)
  scientific : Option (List String)
  deriving DecidableEq, Repr

structure SetSuggest where
  weight : Option ℚ
  reps : Option Int
  rep_range : Option Int
  duration : Option Int
  rpe : Option ℚ
  rest_time : Option Int
  deriving DecidableEq, Repr

def SetSuggest.default : SetSuggest :=
  ⟨none, none, none, none, none, none⟩

structure SetActual where
  weight : Option ℚ
  reps : Option Int
  duration : Option Int
  rpe : Option ℚ
  actual_rest_time : Option Int
  deriving DecidableEq, Repr

def SetActual.default : SetActual :=
  ⟨none, none, none, none, none⟩

/-- `SetActual::volume`: `weight × reps`, defined only when both are present. -/
def SetActual.volume (a : SetActual) : Option ℚ :=
  match a.weight, a.reps with
  | some w, some r => some (w * (r : ℚ))
  | _, _ => none

structure ExerciseSet where
  id : Id
  set_type : SetType
  weight_unit : Option WeightUnit
  suggest : SetSuggest
  actual : SetActual
  is_completed : Bool
  exercise_id : Id
  workout_id : Id
  set_index : Int
  deriving DecidableEq, Repr

/-- `ExerciseSet::new` (the fresh random id is supplied explicitly). -/
def ExerciseSet.new (newId exercise_id workout_id : Id) (set_index : Int) : ExerciseSet :=
  { id := newId
    set_type := .working
    weight_unit := none
    suggest := SetSuggest.default
    actual := SetActual.default
    is_completed := false
    exercise_id := exercise_id
    workout_id := workout_id
    set_index := set_index }

structure Exercise where
  id : Id
  superset_id : Option Int
  workout_id : Id
  name : String
  pinned_notes : List String
  notes : List String
  duration : Option Int
  exercise_type : ExerciseType
  weight_unit : Option WeightUnit
  default_warm_up_time : Option Int
  default_rest_time : Option Int
  sets : List ExerciseSet
  body_part : Option BodyPart
  deriving DecidableEq, Repr

/-- `Exercise::is_completed`: non-empty set list and every set completed. -/
def Exercise.is_completed (ex : Exercise) : Bool :=
  !ex.sets.isEmpty && ex.sets.all (·.is_completed)

/-- `Exercise::total_volume`: sum of `weight × reps` over the *completed*
sets whose volume is defined. -/
def Exercise.total_volume (ex : Exercise) : ℚ :=
  ((ex.sets.filter (·.is_completed)).filterMap (·.actual.volume)).sum

/-- `Exercise::add_set`: appends a fresh empty set whose `set_index` is the
current number of sets (the fresh set id is supplied explicitly). -/
def Exercise.add_set (ex : Exercise) (newSetId : Id) : Exercise :=
  { ex with
    sets := ex.sets ++ [ExerciseSet.new newSetId ex.id ex.workout_id (ex.sets.length : Int)] }

structure GlobalExercise where
  id : Id
  name : String
  exercise_type : String
  additional_fk : Option String
  muscle_group : String
  image_name : String
  deriving DecidableEq, Repr

/-- `GlobalExercise::new` (fresh id supplied explicitly). -/
def GlobalExercise.new (newId : Id) (name exercise_type muscle_group : String) :
    GlobalExercise :=
  { id := newId
    name := name
    exercise_type := exercise_type
    additional_fk := none
    muscle_group := muscle_group
    image_name := "" }

/-- `Exercise::from_global` (fresh exercise id supplied explicitly). -/
def Exercise.from_global (newId : Id) (g : GlobalExercise) (workout_id : Id) : Exercise :=
  { id := newId
    superset_id := none
    workout_id := workout_id
    name := g.name
    pinned_notes := []
    notes := []
    duration := none
    exercise_type := .unknown
    weight_unit := none
    default_warm_up_time := none
    default_rest_time := some 60
    sets := []
    body_part := none }

structure Workout where
  id : Id
  name : String
  note : Option String
  duration : Option Int
  start_timestamp : Int
  end_timestamp : Option Int
  exercises : List Exercise
  deriving DecidableEq, Repr

/-- `Workout::new` (fresh id and `Utc::now()` supplied explicitly). -/
def Workout.new (newId : Id) (now : Int) : Workout :=
  { id := newId
    name := ""
    note := none
    duration := none
    start_timestamp := now
    end_timestamp := none
    exercises := [] }

/-- `Workout::total_sets`. -/
def Workout.total_sets (w : Workout) : ℕ :=
  (w.exercises.map (·.sets.length)).sum

/-- `Workout::total_volume`. -/
def Workout.total_volume (w : Workout) : ℚ :=
  (w.exercises.map (·.total_volume)).sum

/-- `Workout::finish`: sets the end timestamp (from `Utc::now()`, supplied
explicitly) and stores the caller-supplied elapsed seconds as the duration. -/
def Workout.finish (w : Workout) (elapsed_seconds : Int) (now : Int) : Workout :=
  { w with end_timestamp := some now, duration := some elapsed_seconds }

/-! ### Plate calculator value types (`src/models.rs`) -/

structure Plate where
  id : Id
  weight : ℚ
  deriving DecidableEq, Repr

/-- `Plate::new` — in Rust the plate gets a fresh random id; the id is never
observed by any computation modelled here, so it is fixed to the empty
string. -/
def Plate.new (weight : ℚ) : Plate := ⟨⟨""⟩, weight⟩

/-- `Plate::standard`: the pound catalog, largest first. -/
def Plate.standard : List Plate :=
  [Plate.new 45, Plate.new 35, Plate.new 25, Plate.new 10, Plate.new 5, Plate.new (5/2)]

/-- `Plate::standard_kg`: the kilogram catalog, largest first. -/
def Plate.standard_kg : List Plate :=
  [Plate.new 25, Plate.new 20, Plate.new 15, Plate.new 10, Plate.new 5,
   Plate.new (5/2), Plate.new (5/4)]

structure BarType where
  id : Id
  name : String
  weight : ℚ
  deriving DecidableEq, Repr

/-- `BarType::new` (id fixed as for `Plate.new`). -/
def BarType.new (name : String) (weight : ℚ) : BarType := ⟨⟨""⟩, name, weight⟩

structure PlateCalculation where
  total_weight : ℚ
  bar_type : BarType
  plates : List Plate
  weight_unit : WeightUnit
  deriving DecidableEq, Repr

/-- Rust `f64::round`: round half away from zero. -/
def rustRound (q : ℚ) : Int :=
  if 0 ≤ q then ⌊q + 1/2⌋ else -⌊-q + 1/2⌋

/-- Render a weight stored as integer hundredths the way
`formatted_plate_description` renders `weight_key as f64 / 100.0`:
whole numbers without a decimal point, fractional weights in their
natural (shortest) decimal form. -/
def hundredthsToString (key : Int) : String :=
  let sign := if key < 0 then "-" else ""
  let k := key.natAbs
  let intPart := k / 100
  let frac := k % 100
  if frac == 0 then sign ++ toString intPart
  else if frac % 10 == 0 then sign ++ toString intPart ++ "." ++ toString (frac / 10)
  else if frac < 10 then sign ++ toString intPart ++ ".0" ++ toString frac
  else sign ++ toString intPart ++ "." ++ toString frac

/-- `PlateCalculation::formatted_plate_description`: group the plates by
weight (keyed on integer hundredths), sort the groups descending by
weight, render each group as `"{count}x{weight}{unit}"`, join with
`", "`.  The Rust `HashMap` has arbitrary iteration order but the keys
are sorted before rendering, so the output is deterministic; here the
distinct keys are collected in first-occurrence order and then sorted. -/
def PlateCalculation.formatted_plate_description (pc : PlateCalculation) : String :=
  let unitSuffix := match pc.weight_unit with
    | .kg => "kg"
    | .lb | .bodyweight => "lb"
  let keys := (pc.plates.map (fun p => rustRound (p.weight * 100))).eraseDups
  let sorted := keys.mergeSort (fun a b => b ≤ a)
  let parts := sorted.map (fun key =>
    let count := pc.plates.countP (fun p => rustRound (p.weight * 100) == key)
    toString count ++ "x" ++ hundredthsToString key ++ unitSuffix)
  String.intercalate ", " parts

/-! ### The greedy plate fill (`Thiccc::perform_plate_calculation`,
`src/app/mod.rs`) -/

/-- The inner `while remaining >= plate.weight - 0.01` loop for one plate
size: returns how many plates of weight `w` are recorded and the weight
left over.  Terminates because each iteration removes `w > 1/100` from
`remaining`; the extra `1/100 < w` guard is vacuously true for every
weight in either plate catalog (the Rust loop would not terminate on a
nonpositive weight, a case the fixed catalogs never produce). -/
def spin (w : ℚ) (remaining : ℚ) : ℕ × ℚ :=
  if h : 1/100 < w ∧ w - 1/100 ≤ remaining then
    let p := spin w (remaining - w)
    (p.1 + 1, p.2)
  else (0, remaining)
  termination_by (⌊(remaining - w + 1/100) / w⌋ + 1).toNat
  decreasing_by
    obtain ⟨hw, hr⟩ := h
    have hwpos : (0:ℚ) < w := lt_trans (by norm_num) hw
    have ha : (0:ℚ) ≤ (remaining - w + 1/100) / w := by
      apply div_nonneg _ (le_of_lt hwpos)
      linarith
    have hfl : (0:ℤ) ≤ ⌊(remaining - w + 1/100) / w⌋ := Int.floor_nonneg.mpr ha
    have harg : (remaining - w - w + 1/100) / w = (remaining - w + 1/100) / w - 1 := by
      field_simp
      ring
    rw [harg, Int.floor_sub_one]
    omega

/-- The outer `for plate in &available_plates` loop of the greedy fill:
for each catalog entry, push one plate per completed inner-loop
iteration, then continue with the remaining weight. -/
def greedyPlates : List Plate → ℚ → List Plate
  | [], _ => []
  | p :: rest, remaining =>
    let s := spin p.weight remaining
    List.replicate s.1 p ++ greedyPlates rest s.2

/-- Model of Rust's `Display` for `f64` (`format!("{}", x)`) restricted to
values with a terminating decimal expansion, which covers every value the
reducer ever formats: whole numbers print without a decimal point,
fractional values with their shortest natural decimal form. -/
def fmtF64 (q : ℚ) : String :=
  let sign := if q.num < 0 then "-" else ""
  let n := q.num.natAbs
  if q.den == 1 then sign ++ toString n
  else
    match (List.range 18).find? (fun k => 10 ^ k % q.den == 0) with
    | some k =>
      let scaled := n * (10 ^ k / q.den)
      let fs := toString (scaled % 10 ^ k)
      sign ++ toString (scaled / 10 ^ k) ++ "." ++
        String.mk (List.replicate (k - fs.length) '0') ++ fs
    | none => sign ++ toString q

/-! ### `src/app/events.rs` — event taxonomy and capability result types -/

inductive Tab where
  | workout | history
  deriving DecidableEq, Repr

inductive NavigationDestination where
  | workoutDetail (workout_id : String)
  | historyDetail (workout_id : String)
  deriving DecidableEq, Repr

inductive TimerOutput where
  | tick | started | stopped
  deriving DecidableEq, Repr

inductive DatabaseResult where
  | workoutSaved
  | workoutDeleted
  | historyLoaded (workouts : List Workout)
  | workoutLoaded (workout : Option Workout)
  deriving DecidableEq, Repr

/-- `StorageResult` — the JSON string carried by `CurrentWorkoutLoaded` is
represented by its parse outcome (`none` = no file was saved). -/
inductive StorageResult where
  | currentWorkoutSaved
  | currentWorkoutLoaded (workout_json : Option (Except String Workout))
  | currentWorkoutDeleted
  | error (message : String)
  deriving Repr

inductive Event where
  | startWorkout
  | finishWorkout
  | discardWorkout
  | updateWorkoutName (name : String)
  | updateWorkoutNotes (notes : String)
  | addExercise (name exercise_type muscle_group : String)
  | deleteExercise (exercise_id : String)
  | moveExercise (from_index to_index : ℕ)
  | showAddExerciseView
  | dismissAddExerciseView
  | addSet (exercise_id : String)
  | deleteSet (exercise_id : String) (set_index : ℕ)
  | updateSetActual (set_id : String) (actual : SetActual)
  | toggleSetCompleted (set_id : String)
  | timerTick
  | startTimer
  | stopTimer
  | toggleTimer
  | showStopwatch
  | dismissStopwatch
  | showRestTimer (duration_seconds : Int)
  | dismissRestTimer
  | loadHistory
  | viewHistoryItem (workout_id : String)
  | navigateBack
  | changeTab (tab : Tab)
  | importWorkout (json_data : Except String Workout)
  | showImportView
  | dismissImportView
  | loadWorkoutTemplate
  | calculatePlates (target_weight bar_weight : ℚ) (use_percentage : Option ℚ)
  | clearPlateCalculation
  | showPlateCalculator
  | dismissPlateCalculator
  | appInit
  | databaseResponse (result : DatabaseResult)
  | storageResponse (result : StorageResult)
  | timerResponse (output : TimerOutput)
  | errorEvent (message : String)
  deriving Repr

/-! ### `src/app/model.rs` — application state -/

structure Model where
  current_workout : Option Workout
  workout_timer_seconds : Int
  timer_running : Bool
  workout_history : List Workout
  history_detail_view : Option Workout
  selected_tab : Tab
  navigation_stack : List NavigationDestination
  showing_add_exercise : Bool
  showing_import : Bool
  showing_stopwatch : Bool
  showing_rest_timer : Option Int
  showing_plate_calculator : Bool
  plate_calculation : Option PlateCalculation
  is_loading : Bool
  error_message : Option String
  deriving DecidableEq, Repr

/-- `Model::default`: the fresh app state. -/
def Model.default : Model :=
  { current_workout := none
    workout_timer_seconds := 0
    timer_running := false
    workout_history := []
    history_detail_view := none
    selected_tab := .workout
    navigation_stack := []
    showing_add_exercise := false
    showing_import := false
    showing_stopwatch := false
    showing_rest_timer := none
    showing_plate_calculator := false
    plate_calculation := none
    is_loading := false
    error_message := none }

/-- Saturating-truncating Rust `as i32` cast from `f64` (modelled on `ℚ`,
where no NaN exists): truncate toward zero (t-division of the reduced
numerator by the denominator), then clamp to the `i32` range. -/
def f64AsI32 (q : ℚ) : Int :=
  max (-(2^31)) (min (2^31 - 1) (q.num.tdiv (q.den : Int)))

/-- `Model::calculate_total_volume`: the active workout's total volume as
`i32`, `0` when no workout is active.  This is the figure the view
projection surfaces (`build_workout_view` copies it verbatim). -/
def Model.calculate_total_volume (m : Model) : Int :=
  match m.current_workout with
  | some w => f64AsI32 w.total_volume
  | none => 0

/-- `Model::calculate_total_sets`. -/
def Model.calculate_total_sets (m : Model) : ℕ :=
  match m.current_workout with
  | some w => w.total_sets
  | none => 0

/-- Zero-pad a natural number to two digits (`format!("{:02}", n)`). -/
def pad2 (n : Int) : String :=
  let s := toString n
  if 0 ≤ n && n < 10 then "0" ++ s else s

/-- `Model::format_duration`: `MM:SS` from the timer counter (Rust `i32`
division and remainder truncate toward zero). -/
def Model.format_duration (m : Model) : String :=
  pad2 (m.workout_timer_seconds.tdiv 60) ++ ":" ++ pad2 (m.workout_timer_seconds.tmod 60)

/-! ### `Thiccc::validate_workout_ids` (`src/app/mod.rs`) -/

/-- Validation of one set's three identifiers, with the positioned error
messages of `validate_workout_ids`. -/
def validateSetIds (exIdx setIdx : ℕ) (s : ExerciseSet) : Except String Unit :=
  match Id.fromString s.id.val with
  | .error e =>
    .error ("Invalid set ID at exercise " ++ toString exIdx ++ " set " ++
      toString setIdx ++ ": " ++ e)
  | .ok _ =>
    match Id.fromString s.exercise_id.val with
    | .error e =>
      .error ("Invalid exercise_id in set at exercise " ++ toString exIdx ++
        " set " ++ toString setIdx ++ ": " ++ e)
    | .ok _ =>
      match Id.fromString s.workout_id.val with
      | .error e =>
        .error ("Invalid workout_id in set at exercise " ++ toString exIdx ++
          " set " ++ toString setIdx ++ ": " ++ e)
      | .ok _ => .ok ()

/-- The inner `for (set_idx, set) in exercise.sets.iter().enumerate()` loop. -/
def validateSetsFrom (exIdx : ℕ) (setIdx : ℕ) : List ExerciseSet → Except String Unit
  | [] => .ok ()
  | s :: rest =>
    match validateSetIds exIdx setIdx s with
    | .error e => .error e
    | .ok _ => validateSetsFrom exIdx (setIdx + 1) rest

/-- Validation of one exercise's own identifiers plus all of its sets. -/
def validateExerciseIds (exIdx : ℕ) (ex : Exercise) : Except String Unit :=
  match Id.fromString ex.id.val with
  | .error e => .error ("Invalid exercise ID at index " ++ toString exIdx ++ ": " ++ e)
  | .ok _ =>
    match Id.fromString ex.workout_id.val with
    | .error e =>
      .error ("Invalid workout_id in exercise at index " ++ toString exIdx ++ ": " ++ e)
    | .ok _ => validateSetsFrom exIdx 0 ex.sets

/-- The outer `for (exercise_idx, exercise) in workout.exercises.iter().enumerate()`
loop. -/
def validateExercisesFrom (exIdx : ℕ) : List Exercise → Except String Unit
  | [] => .ok ()
  | ex :: rest =>
    match validateExerciseIds exIdx ex with
    | .error e => .error e
    | .ok _ => validateExercisesFrom (exIdx + 1) rest

/-- `Thiccc::validate_workout_ids`: re-validate every identifier of an
imported aggregate, returning the first positioned failure. -/
def validate_workout_ids (w : Workout) : Except String Unit :=
  match Id.fromString w.id.val with
  | .error e => .error ("Invalid workout ID: " ++ e)
  | .ok _ => validateExercisesFrom 0 w.exercises

/-! ### Reducer support: fresh-value supply, effects, model helpers -/

/-- The values the Rust reducer draws from its environment during one
event (`Id::new()` fresh UUIDs and `Utc::now()`); supplied explicitly and
universally quantified in every theorem. -/
structure Gen where
  workoutId : Id
  exerciseId : Id
  globalExerciseId : Id
  setId : Id
  now : Int
  deriving Repr

/-- The effect requests the reducer can emit (`render()` and
`Command::request_from_shell(..)`); a save request's serialized workout
JSON is represented by the workout itself. -/
inductive Effect where
  | render
  | timerStart
  | timerStop
  | dbSaveWorkout (w : Workout)
  | dbLoadAllWorkouts
  | storageSaveCurrentWorkout (w : Workout)
  | storageLoadCurrentWorkout
  | storageDeleteCurrentWorkout
  deriving DecidableEq, Repr

/-- Replace the first element satisfying `p` (the functional counterpart
of mutating through `iter_mut().find(..)`). -/
def updateFirstWhere (p : α → Bool) (f : α → α) : List α → List α
  | [] => []
  | x :: xs => if p x then f x :: xs else x :: updateFirstWhere p f xs

/-- `Model::find_exercise_mut` as an existence test: is there an exercise
with this id in the active workout? -/
def Model.exerciseExists (m : Model) (id : Id) : Bool :=
  match m.current_workout with
  | some w => w.exercises.any (fun ex => ex.id == id)
  | none => false

/-- `Model::find_set_mut` as an existence test (sets are searched across
all exercises in order). -/
def Model.setExists (m : Model) (id : Id) : Bool :=
  match m.current_workout with
  | some w => w.exercises.any (fun ex => ex.sets.any (fun s => s.id == id))
  | none => false

/-- Mutation through `Model::find_exercise_mut`: update the first exercise
with the given id (no-op when absent or no workout is active). -/
def Model.updateExercise (m : Model) (id : Id) (f : Exercise → Exercise) : Model :=
  match m.current_workout with
  | some w =>
    let exs := updateFirstWhere (fun ex => ex.id == id) f w.exercises
    { m with current_workout := some { w with exercises := exs } }
  | none => m

/-- Mutation through `Model::find_set_mut`: update the first set with the
given id, scanning exercises in order. -/
def updateFirstSetIn (id : Id) (f : ExerciseSet → ExerciseSet) :
    List Exercise → List Exercise
  | [] => []
  | ex :: rest =>
    if ex.sets.any (fun s => s.id == id) then
      { ex with sets := updateFirstWhere (fun s => s.id == id) f ex.sets } :: rest
    else ex :: updateFirstSetIn id f rest

def Model.updateSet (m : Model) (id : Id) (f : ExerciseSet → ExerciseSet) : Model :=
  match m.current_workout with
  | some w => { m with current_workout := some { w with exercises := updateFirstSetIn id f w.exercises } }
  | none => m

/-- The `for (idx, set) in exercise.sets.iter_mut().enumerate()` re-indexing
loop of the `DeleteSet` handler: assign `set_index = k, k+1, ...` in list
order. -/
def reindexFrom (k : ℕ) : List ExerciseSet → List ExerciseSet
  | [] => []
  | s :: rest => { s with set_index := (k : Int) } :: reindexFrom (k + 1) rest

def reindexSets (l : List ExerciseSet) : List ExerciseSet := reindexFrom 0 l

/-! ### `Thiccc::perform_plate_calculation` (`src/app/mod.rs`) -/

/-- `perform_plate_calculation`: effective weight from the optional
percentage, per-side weight after the bar, rejection when negative,
greedy largest-first fill over the pound catalog. -/
def perform_plate_calculation (m : Model) (target_weight bar_weight : ℚ)
    (percentage : Option ℚ) : Model :=
  let actual_weight := match percentage with
    | some pct => target_weight * (pct / 100)
    | none => target_weight
  let weight_per_side := (actual_weight - bar_weight) / 2
  if weight_per_side < 0 then
    { m with error_message := some "Target weight is less than bar weight"
             plate_calculation := none }
  else
    let plates := greedyPlates Plate.standard weight_per_side
    let result : PlateCalculation :=
      { total_weight := actual_weight
        bar_type := BarType.new "Bar" bar_weight
        plates := plates
        weight_unit := .lb }
    { m with plate_calculation := some result }

/-! ### The reducer (`src/app/update/*.rs`) -/

/-- The error message of the `StartWorkout` single-active-workout guard. -/
def wipMsg : String :=
  "A workout is " ++ "already in progress" ++ ". Please finish or discard it first."

/-- `update`: one reducer step.  Routes the event exactly as
`update/mod.rs` does and reproduces each feature handler; returns the
mutated model together with the emitted effect requests. -/
def update (g : Gen) (e : Event) (m : Model) : Model × List Effect :=
  match e with
  -- `update/app_lifecycle.rs` (`Event::Initialize`)
  | .appInit => (m, [.storageLoadCurrentWorkout])
  -- `update/workout.rs`
  | .startWorkout =>
    if m.current_workout.isSome then
      ({ m with error_message := some wipMsg }, [.render])
    else
      let w := Workout.new g.workoutId g.now
      ({ m with current_workout := some w
                workout_timer_seconds := 0
                timer_running := true
                error_message := none },
       [.timerStart, .storageSaveCurrentWorkout w, .render])
  | .finishWorkout =>
    match m.current_workout with
    | some w =>
      let w' := w.finish m.workout_timer_seconds g.now
      ({ m with current_workout := none
                workout_history := w' :: m.workout_history
                workout_timer_seconds := 0
                timer_running := false
                error_message := none },
       [.dbSaveWorkout w', .storageDeleteCurrentWorkout, .timerStop, .render])
    | none =>
      ({ m with current_workout := none
                workout_timer_seconds := 0
                timer_running := false
                error_message := none }, [.render])
  | .discardWorkout =>
    ({ m with current_workout := none
              workout_timer_seconds := 0
              timer_running := false
              error_message := none },
     [.storageDeleteCurrentWorkout, .timerStop, .render])
  | .updateWorkoutName name =>
    (match m.current_workout with
     | some w => { m with current_workout := some { w with name := name } }
     | none => m, [.render])
  | .updateWorkoutNotes notes =>
    (match m.current_workout with
     | some w =>
       let w' := { w with note := if notes.isEmpty then none else some notes }
       { m with current_workout := some w' }
     | none => m, [.render])
  -- `update/exercise.rs`
  | .addExercise name exercise_type muscle_group =>
    let w := m.current_workout.getD (Workout.new g.workoutId g.now)
    let ge := GlobalExercise.new g.globalExerciseId name exercise_type muscle_group
    let newEx := Exercise.from_global g.exerciseId ge w.id
    ({ m with current_workout := some { w with exercises := w.exercises ++ [newEx] }
              showing_add_exercise := false
              error_message := none }, [.render])
  | .deleteExercise exercise_id =>
    (match Id.fromString exercise_id with
     | .ok id =>
       match m.current_workout with
       | some w =>
         let w' := { w with exercises := w.exercises.filter (fun ex => !(ex.id == id)) }
         { m with current_workout := some w' }
       | none => m
     | .error e => { m with error_message := some ("Invalid exercise ID: " ++ e) },
     [.render])
  | .moveExercise from_index to_index =>
    (match m.current_workout with
     | some w =>
       if h : from_index < w.exercises.length ∧ to_index < w.exercises.length then
         let ex := w.exercises.get ⟨from_index, h.1⟩
         let w' := { w with exercises := (w.exercises.eraseIdx from_index).insertIdx to_index ex }
         { m with current_workout := some w' }
       else
         { m with error_message := some ("Cannot move exercise: " ++ "invalid position" ++
             " (from: " ++ toString from_index ++ ", to: " ++ toString to_index ++
             ", total: " ++ toString w.exercises.length ++ ")") }
     | none => m, [.render])
  | .showAddExerciseView => ({ m with showing_add_exercise := true }, [.render])
  | .dismissAddExerciseView => ({ m with showing_add_exercise := false }, [.render])
  -- `update/sets.rs`
  | .addSet exercise_id =>
    (match Id.fromString exercise_id with
     | .ok id =>
       if m.exerciseExists id then
         { m.updateExercise id (fun ex => ex.add_set g.setId) with error_message := none }
       else m
     | .error e => { m with error_message := some ("Invalid exercise ID: " ++ e) },
     [.render])
  | .deleteSet exercise_id set_index =>
    (match Id.fromString exercise_id with
     | .ok id =>
       match m.current_workout with
       | some w =>
         match w.exercises.find? (fun ex => ex.id == id) with
         | some ex =>
           if set_index < ex.sets.length then
             m.updateExercise id
               (fun ex => { ex with sets := reindexSets (ex.sets.eraseIdx set_index) })
           else
             { m with error_message := some ("Cannot delete set: index " ++
                 toString set_index ++ " is out of bounds (total sets: " ++
                 toString ex.sets.length ++ ")") }
         | none => m
       | none => m
     | .error e => { m with error_message := some ("Invalid exercise ID: " ++ e) },
     [.render])
  | .updateSetActual set_id actual =>
    (match Id.fromString set_id with
     | .ok id =>
       if m.setExists id then m.updateSet id (fun s => { s with actual := actual }) else m
     | .error e => { m with error_message := some ("Invalid set ID: " ++ e) },
     [.render])
  | .toggleSetCompleted set_id =>
    (match Id.fromString set_id with
     | .ok id =>
       if m.setExists id then
         m.updateSet id (fun s => { s with is_completed := !s.is_completed })
       else m
     | .error e => { m with error_message := some ("Invalid set ID: " ++ e) },
     [.render])
  -- `update/timer.rs`
  | .timerTick =>
    (if m.timer_running then
       { m with workout_timer_seconds := m.workout_timer_seconds + 1 }
     else m, [.render])
  | .startTimer => ({ m with timer_running := true }, [.timerStart])
  | .stopTimer => ({ m with timer_running := false }, [.timerStop])
  | .toggleTimer =>
    let running := !m.timer_running
    ({ m with timer_running := running }, [if running then .timerStart else .timerStop])
  | .showStopwatch => ({ m with showing_stopwatch := true }, [.render])
  | .dismissStopwatch => ({ m with showing_stopwatch := false }, [.render])
  | .showRestTimer duration_seconds =>
    ({ m with showing_rest_timer := some duration_seconds }, [.render])
  | .dismissRestTimer => ({ m with showing_rest_timer := none }, [.render])
  -- `update/history.rs`
  | .loadHistory => ({ m with is_loading := true }, [.dbLoadAllWorkouts])
  | .viewHistoryItem workout_id =>
    ({ m with navigation_stack :=
        m.navigation_stack ++ [NavigationDestination.historyDetail workout_id] }, [.render])
  | .navigateBack => ({ m with navigation_stack := m.navigation_stack.dropLast }, [.render])
  | .changeTab tab =>
    ({ m with selected_tab := tab, navigation_stack := [], error_message := none }, [.render])
  -- `update/import_export.rs`
  | .importWorkout json_data =>
    (match json_data with
     | .ok workout =>
       match validate_workout_ids workout with
       | .error e => { m with error_message := some ("Invalid workout data: " ++ e) }
       | .ok _ =>
         { m with current_workout := some workout
                  showing_import := false
                  error_message := none }
     | .error e => { m with error_message := some ("Failed to import workout: " ++ e) },
     [.render])
  | .showImportView => ({ m with showing_import := true }, [.render])
  | .dismissImportView => ({ m with showing_import := false }, [.render])
  | .loadWorkoutTemplate =>
    ({ m with error_message := some "Template loading not yet implemented" }, [.render])
  -- `update/plate_calculator.rs`
  | .calculatePlates target_weight bar_weight use_percentage =>
    (if target_weight ≤ 0 then
       { m with error_message := some "Target weight must be greater than 0"
                plate_calculation := none }
     else if bar_weight ≤ 0 then
       { m with error_message := some "Bar weight must be greater than 0"
                plate_calculation := none }
     else
       match use_percentage with
       | some percentage =>
         if percentage < 0 ∨ 100 < percentage then
           { m with error_message := some ("Percentage must be between 0 and 100 (got " ++
               fmtF64 percentage ++ ")")
                    plate_calculation := none }
         else perform_plate_calculation m target_weight bar_weight (some percentage)
       | none => perform_plate_calculation m target_weight bar_weight none,
     [.render])
  | .clearPlateCalculation => ({ m with plate_calculation := none }, [.render])
  | .showPlateCalculator => ({ m with showing_plate_calculator := true }, [.render])
  | .dismissPlateCalculator =>
    ({ m with showing_plate_calculator := false, plate_calculation := none }, [.render])
  -- `update/capabilities.rs`
  | .databaseResponse result =>
    (match result with
     | .workoutSaved => { m with is_loading := false }
     | .workoutDeleted => { m with is_loading := false }
     | .historyLoaded workouts => { m with is_loading := false, workout_history := workouts }
     | .workoutLoaded workout => { m with is_loading := false, current_workout := workout },
     [.render])
  | .storageResponse result =>
    match result with
    | .currentWorkoutSaved => ({ m with is_loading := false }, [.render])
    | .currentWorkoutLoaded workout_json =>
      (match workout_json with
       | some (.ok workout) =>
         ({ m with is_loading := false
                   workout_timer_seconds := max 0 (g.now - workout.start_timestamp)
                   current_workout := some workout
                   timer_running := true }, [.timerStart])
       | some (.error e) =>
         ({ m with is_loading := false
                   error_message := some ("Failed to load workout: " ++ e) }, [.render])
       | none => ({ m with is_loading := false }, [.render]))
    | .currentWorkoutDeleted => ({ m with is_loading := false }, [.render])
    | .error message =>
      ({ m with is_loading := false
                error_message := some ("Storage error: " ++ message) }, [.render])
  | .timerResponse output =>
    (match output with
     | .tick =>
       if m.timer_running then
         { m with workout_timer_seconds := m.workout_timer_seconds + 1 }
       else m
     | .started => m
     | .stopped => m, [.render])
  | .errorEvent message =>
    ({ m with error_message := some message, is_loading := false }, [.render])

/-- Fold a list of events (each with its environment supply) through the
reducer, keeping the model. -/
def runEvents (l : List (Gen × Event)) (m : Model) : Model :=
  l.foldl (fun acc p => (update p.1 p.2 acc).1) m

/-- Fold a run of `TimerTick` events through the reducer. -/
def runTicks (gl : List Gen) (m : Model) : Model :=
  gl.foldl (fun acc g => (update g .timerTick acc).1) m

/-! ### Concrete fixtures used by witnesses and counterexamples -/

def uuidA : String := "550e8400-e29b-41d4-a716-446655440000"
def uuidB : String := "6fa459ea-ee8a-3ca4-894e-db77e160355e"
def uuidC : String := "16fd2706-8baf-433b-82eb-8c7fada847da"
def uuidD : String := "886313e1-3b8a-5372-9b90-0c9aee199e5d"

def gen0 : Gen :=
  { workoutId := ⟨uuidA⟩
    exerciseId := ⟨uuidB⟩
    globalExerciseId := ⟨uuidC⟩
    setId := ⟨uuidD⟩
    now := 0 }

/-- A set that carries actual weight 10 and 2 reps but is not completed. -/
def setIncomplete : ExerciseSet :=
  { ExerciseSet.new ⟨uuidD⟩ ⟨uuidB⟩ ⟨uuidA⟩ 0 with
    actual := { SetActual.default with weight := some 10, reps := some 2 } }

def exercise0 : Exercise :=
  { id := ⟨uuidB⟩
    superset_id := none
    workout_id := ⟨uuidA⟩
    name := "Bench Press"
    pinned_notes := []
    notes := []
    duration := none
    exercise_type := .barbell
    weight_unit := none
    default_warm_up_time := none
    default_rest_time := some 60
    sets := [setIncomplete]
    body_part := none }

def workout0 : Workout :=
  { id := ⟨uuidA⟩
    name := "Push Day"
    note := none
    duration := none
    start_timestamp := 0
    end_timestamp := none
    exercises := [exercise0] }

def model0 : Model := { Model.default with current_workout := some workout0 }

end Thiccc

namespace Thiccc

/-! ## Claim C7 — capability responses and the loading flag -/

/-- C7 counterexample: the claim says every capability-response handler —
`TimerResponse` included — clears `is_loading` (sets it to `false`); but
the `TimerResponse` arm never touches the flag, so on a model whose flag
is set it remains `true`. -/
theorem claim7_timer_response_keeps_loading_counterexample :
    (update gen0 (.timerResponse .started) { Model.default with is_loading := true }).1.is_loading
      = true := by
  decide

/-- C7 (amended): `DatabaseResponse`, `StorageResponse` and `Error`
responses set `is_loading` to `false` whatever result they carry, while a
`TimerResponse` leaves `is_loading` exactly as it was. -/
theorem claim7_capability_responses_loading_flag (g : Gen) (m : Model)
    (dr : DatabaseResult) (sr : StorageResult) (tr : TimerOutput) (msg : String) :
    (update g (.databaseResponse dr) m).1.is_loading = false ∧
    (update g (.storageResponse sr) m).1.is_loading = false ∧
    (update g (.errorEvent msg) m).1.is_loading = false ∧
    (update g (.timerResponse tr) m).1.is_loading = m.is_loading := by
  refine ⟨?_, ?_, rfl, ?_⟩
  · cases dr <;> rfl
  · rcases sr with _ | j | _ | _
    · rfl
    · rcases j with _ | e
      · rfl
      · rcases e with e | w <;> rfl
    · rfl
    · rfl
  · rcases tr with _ | _ | _
    · show (if m.timer_running then _ else m).is_loading = m.is_loading
      split <;> rfl
    · rfl
    · rfl

/-! ## Claim C10 — well-formed but unmatched identifiers are silent no-ops -/

/-- C10: for the five id-taking set/exercise operations, a syntactically
valid UUID that matches no exercise (resp. no set) in the active workout —
including the case where no workout is active at all — leaves the model
completely unchanged (in particular no `error_message` is set), and only a
render is requested. -/
theorem claim10_unmatched_valid_ids_are_silent (g : Gen) (m : Model) (s : String)
    (id : Id) (idx : ℕ) (a : SetActual) (hid : Id.fromString s = .ok id) :
    (m.exerciseExists id = false →
      update g (.addSet s) m = (m, [.render]) ∧
      update g (.deleteSet s idx) m = (m, [.render]) ∧
      update g (.deleteExercise s) m = (m, [.render])) ∧
    (m.setExists id = false →
      update g (.updateSetActual s a) m = (m, [.render]) ∧
      update g (.toggleSetCompleted s) m = (m, [.render])) := by
  constructor
  · intro hex
    refine ⟨?_, ?_, ?_⟩
    · simp [update, hid, hex]
    · cases hw : m.current_workout with
      | none => simp [update, hid, hw]
      | some w =>
        have hany : w.exercises.any (fun ex => ex.id == id) = false := by
          have h := hex
          rwa [Model.exerciseExists, hw] at h
        have hnone : w.exercises.find? (fun ex => ex.id == id) = none := by
          rw [List.find?_eq_none]
          exact List.any_eq_false.mp hany
        simp [update, hid, hw, hnone]
    · cases hw : m.current_workout with
      | none => simp [update, hid, hw]
      | some w =>
        have hany : w.exercises.any (fun ex => ex.id == id) = false := by
          have h := hex
          rwa [Model.exerciseExists, hw] at h
        have hfil : w.exercises.filter (fun ex => !(ex.id == id)) = w.exercises := by
          apply List.filter_eq_self.mpr
          intro x hx
          simpa using List.any_eq_false.mp hany x hx
        have heta : ({ w with exercises := w.exercises } : Workout) = w := rfl
        simp only [update, hid, hw, hfil, heta]
        rw [← hw]
  · intro hset
    constructor
    · simp [update, hid, hset]
    · simp [update, hid, hset]

/-! ## Claim C9 — exercise move bounds checking -/

/-- The claim's description of a successful move: remove at `from_index`,
re-insert at `to_index`. -/
def moveSpec (l : List α) (from_index to_index : ℕ) : List α :=
  match l[from_index]? with
  | some x => (l.eraseIdx from_index).insertIdx to_index x
  | none => l

/-- C9: with an active workout, `MoveExercise` with either index out of
bounds leaves the exercise list unchanged and sets the
`"invalid position"` error; with both indices in bounds it removes the
exercise at `from_index` and re-inserts it at `to_index`, changing nothing
else. -/
theorem claim9_move_exercise_bounds (g : Gen) (m : Model) (w : Workout)
    (from_index to_index : ℕ) (hw : m.current_workout = some w) :
    update g (.moveExercise from_index to_index) m =
      (if from_index < w.exercises.length ∧ to_index < w.exercises.length then
        { m with current_workout := some { w with exercises := moveSpec w.exercises from_index to_index } }
      else
        { m with error_message := some ("Cannot move exercise: " ++ "invalid position" ++
            " (from: " ++ toString from_index ++ ", to: " ++ toString to_index ++
            ", total: " ++ toString w.exercises.length ++ ")") },
      [.render]) := by
  simp only [update, hw]
  split
  case isTrue h =>
    have hget : w.exercises[from_index]? = some (w.exercises.get ⟨from_index, h.1⟩) :=
      List.getElem?_eq_getElem h.1
    simp [moveSpec, hget]
  case isFalse h =>
    rfl

/-- C9 witness: a one-exercise workout with `from_index = 1` out of bounds. -/
theorem claim9_move_exercise_bounds_witness :
    model0.current_workout = some workout0 ∧
    update gen0 (.moveExercise 1 0) model0 =
      (if 1 < workout0.exercises.length ∧ 0 < workout0.exercises.length then
        { model0 with current_workout := some { workout0 with exercises := moveSpec workout0.exercises 1 0 } }
      else
        { model0 with error_message := some ("Cannot move exercise: " ++ "invalid position" ++
            " (from: " ++ toString 1 ++ ", to: " ++ toString 0 ++
            ", total: " ++ toString workout0.exercises.length ++ ")") },
      [.render]) :=
  ⟨rfl, claim9_move_exercise_bounds gen0 model0 workout0 1 0 rfl⟩

/-- C10 witness: a well-formed UUID matching nothing in the active workout. -/
theorem claim10_unmatched_valid_ids_are_silent_witness :
    Id.fromString uuidC = .ok ⟨uuidC⟩ ∧
    model0.exerciseExists ⟨uuidC⟩ = false ∧
    model0.setExists ⟨uuidC⟩ = false ∧
    update gen0 (.addSet uuidC) model0 = (model0, [.render]) ∧
    update gen0 (.deleteSet uuidC 0) model0 = (model0, [.render]) ∧
    update gen0 (.deleteExercise uuidC) model0 = (model0, [.render]) ∧
    update gen0 (.updateSetActual uuidC SetActual.default) model0 = (model0, [.render]) ∧
    update gen0 (.toggleSetCompleted uuidC) model0 = (model0, [.render]) := by
  obtain ⟨h1, h2⟩ :=
    claim10_unmatched_valid_ids_are_silent gen0 model0 uuidC ⟨uuidC⟩ 0 SetActual.default rfl
  exact ⟨rfl, rfl, rfl, (h1 rfl).1, (h1 rfl).2.1, (h1 rfl).2.2, (h2 rfl).1, (h2 rfl).2⟩

/-! ## Claim C6 — starting a workout while one is active -/

/-- C6: with an active workout, `StartWorkout` only sets the
already-in-progress error (every other model field, in particular the
active workout, the counter, the flag and history, is untouched) and
requests only a render — no timer-start and no save; with no active
workout it creates a fresh workout, zeroes the counter, marks the timer
running, clears the error, and requests timer-start and a save of the new
workout. -/
theorem claim6_start_workout_guard (g : Gen) (m : Model) :
    (m.current_workout.isSome = true →
      update g .startWorkout m = ({ m with error_message := some wipMsg }, [.render])) ∧
    (m.current_workout = none →
      update g .startWorkout m =
        ({ m with current_workout := some (Workout.new g.workoutId g.now)
                  workout_timer_seconds := 0
                  timer_running := true
                  error_message := none },
         [.timerStart, .storageSaveCurrentWorkout (Workout.new g.workoutId g.now), .render])) := by
  constructor
  · intro h
    simp [update, h]
  · intro h
    simp [update, h]

/-- C6 witness: both branches at concrete models. -/
theorem claim6_start_workout_guard_witness :
    model0.current_workout.isSome = true ∧
    update gen0 .startWorkout model0 = ({ model0 with error_message := some wipMsg }, [.render]) ∧
    Model.default.current_workout = none ∧
    update gen0 .startWorkout Model.default =
      ({ Model.default with current_workout := some (Workout.new gen0.workoutId gen0.now)
                            workout_timer_seconds := 0
                            timer_running := true
                            error_message := none },
       [.timerStart, .storageSaveCurrentWorkout (Workout.new gen0.workoutId gen0.now), .render]) :=
  ⟨rfl, (claim6_start_workout_guard gen0 model0).1 rfl, rfl,
    (claim6_start_workout_guard gen0 Model.default).2 rfl⟩

/-! ## Claim C5 — the persisted duration is the tracked tick count -/

lemma model_sec_congr (m : Model) (a b : Int) (h : a = b) :
    ({ m with workout_timer_seconds := a } : Model) =
      { m with workout_timer_seconds := b } := by rw [h]

/-- A run of ticks on a running timer adds exactly its length to the
counter (and changes nothing else). -/
lemma runTicks_running (gl : List Gen) (m : Model) (h : m.timer_running = true) :
    runTicks gl m =
      { m with workout_timer_seconds := m.workout_timer_seconds + (gl.length : Int) } := by
  induction gl generalizing m with
  | nil =>
    show m = { m with workout_timer_seconds := m.workout_timer_seconds + ((0:ℕ) : Int) }
    rw [model_sec_congr m _ m.workout_timer_seconds (by norm_num)]
  | cons g gl ih =>
    show runTicks gl (update g .timerTick m).1 = _
    have e1 : (update g .timerTick m).1 =
        { m with workout_timer_seconds := m.workout_timer_seconds + 1 } := by
      simp [update, h]
    rw [e1, ih { m with workout_timer_seconds := m.workout_timer_seconds + 1 } h]
    exact model_sec_congr m _ _ (by simp [List.length_cons]; ring)

/-- Ticks on a stopped timer are dropped. -/
lemma runTicks_stopped (gl : List Gen) (m : Model) (h : m.timer_running = false) :
    runTicks gl m = m := by
  induction gl with
  | nil => rfl
  | cons g gl ih =>
    show runTicks gl (update g .timerTick m).1 = m
    have e1 : (update g .timerTick m).1 = m := by simp [update, h]
    rw [e1, ih]

/-- C5: after `StartWorkout`, `k1` ticks, `StopTimer`, `k2` ticks,
`StartTimer`, `k3` ticks and `FinishWorkout`, the workout prepended to
history carries duration exactly `k1 + k3`; and a single `TimerTick` adds
exactly one second when the timer runs and is the identity otherwise. -/
theorem claim5_duration_is_tick_count (m mt : Model) (g0 gS gT gf gt : Gen)
    (gl1 gl2 gl3 : List Gen) (h : m.current_workout = none) :
    ((update gf .finishWorkout (runTicks gl3 ((update gT .startTimer (runTicks gl2
        ((update gS .stopTimer (runTicks gl1
          ((update g0 .startWorkout m).1))).1))).1))).1).workout_history.head?.map
        (fun w => w.duration) = some (some ((gl1.length : Int) + (gl3.length : Int))) ∧
    (update gt .timerTick mt).1 =
      (if mt.timer_running then
        { mt with workout_timer_seconds := mt.workout_timer_seconds + 1 }
      else mt) := by
  constructor
  · have e1 : (update g0 .startWorkout m).1 =
        { m with current_workout := some (Workout.new g0.workoutId g0.now)
                 workout_timer_seconds := 0
                 timer_running := true
                 error_message := none } := by
      simp [update, h]
    rw [e1, runTicks_running _ _ rfl]
    have eStop : ∀ x : Model, (update gS .stopTimer x).1 = { x with timer_running := false } :=
      fun _ => rfl
    rw [eStop, runTicks_stopped _ _ rfl]
    have eStart : ∀ x : Model, (update gT .startTimer x).1 = { x with timer_running := true } :=
      fun _ => rfl
    rw [eStart, runTicks_running _ _ rfl]
    simp only [update, Workout.finish, List.head?_cons, Option.map_some]
    norm_num
  · cases hr : mt.timer_running <;> simp [update, hr]

set_option maxRecDepth 8000 in
/-- C5 witness: 60 ticks, 120 dropped ticks, 30 ticks give duration 90. -/
theorem claim5_duration_is_tick_count_witness :
    Model.default.current_workout = none ∧
    ((update gen0 .finishWorkout (runTicks (List.replicate 30 gen0) ((update gen0 .startTimer
        (runTicks (List.replicate 120 gen0) ((update gen0 .stopTimer (runTicks (List.replicate 60 gen0)
          ((update gen0 .startWorkout Model.default).1))).1))).1))).1).workout_history.head?.map
        (fun w => w.duration) = some (some 90) := by
  refine ⟨rfl, ?_⟩
  have h := (claim5_duration_is_tick_count Model.default Model.default gen0 gen0 gen0 gen0 gen0
    (List.replicate 60 gen0) (List.replicate 120 gen0) (List.replicate 30 gen0) rfl).1
  simpa using h

/-! ## Claim C2 — the total-volume figure -/

/-- The claim's description of the total-volume figure: the sum over
every set of the active workout with both actual weight and reps present
of `weight × reps`, regardless of the set's `is_completed` flag. -/
def claimTotalVolume (m : Model) : Int :=
  match m.current_workout with
  | some w =>
    f64AsI32 (((w.exercises.flatMap (fun ex => ex.sets)).filterMap (fun s => s.actual.volume)).sum)
  | none => 0

/-- C2 counterexample: a workout whose only set has weight 10 and 2 reps
but `is_completed = false`.  The claim's figure would be 20; the code's
figure is 0, because `Exercise::total_volume` only sums *completed* sets. -/
theorem claim2_total_volume_counterexample :
    ¬ (Model.calculate_total_volume model0 = claimTotalVolume model0) := by
  have h1 : Model.calculate_total_volume model0 = 0 := by
    norm_num [Model.calculate_total_volume, model0, Model.default, workout0,
      Workout.total_volume, exercise0, Exercise.total_volume, setIncomplete,
      ExerciseSet.new, f64AsI32]
  have h2 : claimTotalVolume model0 = 20 := by
    norm_num [claimTotalVolume, model0, Model.default, workout0, exercise0,
      setIncomplete, ExerciseSet.new, SetActual.volume, SetActual.default, f64AsI32,
      List.flatMap_cons, List.flatMap_nil, List.filterMap_cons, List.filterMap_nil]
  omega

/-- C2 (amended): the view projection's total-volume figure equals the
sum of `weight × reps` over every **completed** set of the active workout
that has both actual weight and reps present (truncated to `i32`);
incomplete sets and sets missing either value contribute zero, and the
figure is 0 when no workout is active. -/
theorem claim2_total_volume_amended (m : Model) :
    m.calculate_total_volume =
      (match m.current_workout with
       | some w =>
         f64AsI32 ((((w.exercises.flatMap (fun ex => ex.sets)).filter
           (fun s => s.is_completed)).filterMap (fun s => s.actual.volume)).sum)
       | none => 0) := by
  cases hw : m.current_workout with
  | none => simp [Model.calculate_total_volume, hw]
  | some w =>
    simp only [Model.calculate_total_volume, hw]
    congr 1
    show w.total_volume = _
    rw [Workout.total_volume]
    induction w.exercises with
    | nil => simp
    | cons ex l ih =>
      simp only [List.map_cons, List.sum_cons, List.flatMap_cons, List.filter_append,
        List.filterMap_append, List.sum_append, ih]
      rfl

/-! ## Claim C8 — plate-calculator input validation -/

def targetMsg : String := "Target weight must be greater than 0"
def barMsg : String := "Bar weight must be greater than 0"

/-- The percentage validation message carries the offending value. -/
def percentageMsg (p : ℚ) : String :=
  "Percentage must be between 0 and 100" ++ " (got " ++ fmtF64 p ++ ")"

lemma target_ne_percentage_msg (x : String) :
    targetMsg ≠ "Percentage must be between 0 and 100" ++ " (got " ++ x ++ ")" := by
  intro h
  have h2 := congrArg String.data h
  rw [String.data_append, String.data_append] at h2
  have h3 := congrArg List.head? h2
  simp [targetMsg] at h3

lemma bar_ne_percentage_msg (x : String) :
    barMsg ≠ "Percentage must be between 0 and 100" ++ " (got " ++ x ++ ")" := by
  intro h
  have h2 := congrArg String.data h
  rw [String.data_append, String.data_append] at h2
  have h3 := congrArg List.head? h2
  simp [barMsg] at h3

/-- C8: a non-positive target weight, a non-positive bar weight, and a
supplied percentage outside `[0, 100]` are each rejected with their own
error message (the three messages pairwise distinct, the percentage one
carrying the offending value), the stored calculation is cleared to
`none`, and no new calculation is stored. -/
theorem claim8_plate_input_validation (g : Gen) (m : Model) (t b p : ℚ) (pct : Option ℚ) :
    (t ≤ 0 → update g (.calculatePlates t b pct) m =
      ({ m with error_message := some targetMsg, plate_calculation := none }, [.render])) ∧
    (¬ t ≤ 0 → b ≤ 0 → update g (.calculatePlates t b pct) m =
      ({ m with error_message := some barMsg, plate_calculation := none }, [.render])) ∧
    (¬ t ≤ 0 → ¬ b ≤ 0 → (p < 0 ∨ 100 < p) → update g (.calculatePlates t b (some p)) m =
      ({ m with error_message := some (percentageMsg p), plate_calculation := none }, [.render])) ∧
    targetMsg ≠ barMsg ∧ targetMsg ≠ percentageMsg p ∧ barMsg ≠ percentageMsg p := by
  refine ⟨?_, ?_, ?_, by decide, target_ne_percentage_msg (fmtF64 p),
    bar_ne_percentage_msg (fmtF64 p)⟩
  · intro h
    simp [update, h, targetMsg]
  · intro ht hb
    simp [update, ht, hb, barMsg]
  · intro ht hb hp
    simp only [update, if_neg ht, if_neg hb, if_pos hp]
    rfl

/-- C8 witness: `target = 225, bar = 45, percentage = 150` is rejected
with the percentage message carrying `"150"`, and nothing is stored. -/
theorem claim8_plate_input_validation_witness :
    ¬ (225 : ℚ) ≤ 0 ∧ ¬ (45 : ℚ) ≤ 0 ∧ ((150 : ℚ) < 0 ∨ 100 < (150 : ℚ)) ∧
    update gen0 (.calculatePlates 225 45 (some 150)) Model.default =
      ({ Model.default with
          error_message := some ("Percentage must be between 0 and 100" ++ " (got " ++ "150" ++ ")")
          plate_calculation := none }, [.render]) := by
  have hfmt : fmtF64 150 = "150" := by
    norm_num [fmtF64]
    rfl
  have h := (claim8_plate_input_validation gen0 Model.default 225 45 150 (some 150)).2.2.1
    (by norm_num) (by norm_num) (by norm_num)
  rw [percentageMsg, hfmt] at h
  exact ⟨by norm_num, by norm_num, by norm_num, h⟩

/-! ## Claim C1 — import re-validates every identifier in the aggregate -/

/-- The claim's criterion: every identifier anywhere in the aggregate
tree — workout id, exercise ids and their `workout_id` back-references,
set ids and their `exercise_id`/`workout_id` back-references — is a
well-formed UUID. -/
def allTreeIdsValid (w : Workout) : Bool :=
  isValidUuid w.id.val &&
    w.exercises.all (fun ex =>
      isValidUuid ex.id.val && isValidUuid ex.workout_id.val &&
        ex.sets.all (fun s =>
          isValidUuid s.id.val && isValidUuid s.exercise_id.val &&
            isValidUuid s.workout_id.val))

def exceptOk : Except String Unit → Bool
  | .ok _ => true
  | .error _ => false

def exceptErr : Except String Unit → String
  | .error e => e
  | .ok _ => ""

lemma validateSetsFrom_ok (i j : ℕ) (l : List ExerciseSet) :
    exceptOk (validateSetsFrom i j l) =
      l.all (fun s => isValidUuid s.id.val && isValidUuid s.exercise_id.val &&
        isValidUuid s.workout_id.val) := by
  induction l generalizing j with
  | nil => rfl
  | cons s rest ih =>
    simp only [validateSetsFrom, validateSetIds, Id.fromString, List.all_cons]
    cases h1 : isValidUuid s.id.val with
    | false => simp [h1, exceptOk]
    | true =>
      cases h2 : isValidUuid s.exercise_id.val with
      | false => simp [h1, h2, exceptOk]
      | true =>
        cases h3 : isValidUuid s.workout_id.val with
        | false => simp [h1, h2, h3, exceptOk]
        | true => simp [h1, h2, h3, ih]

lemma validateExercisesFrom_ok (i : ℕ) (l : List Exercise) :
    exceptOk (validateExercisesFrom i l) =
      l.all (fun ex =>
        isValidUuid ex.id.val && isValidUuid ex.workout_id.val &&
          ex.sets.all (fun s =>
            isValidUuid s.id.val && isValidUuid s.exercise_id.val &&
              isValidUuid s.workout_id.val)) := by
  induction l generalizing i with
  | nil => rfl
  | cons ex rest ih =>
    simp only [validateExercisesFrom, validateExerciseIds, Id.fromString, List.all_cons]
    cases h1 : isValidUuid ex.id.val with
    | false => simp [h1, exceptOk]
    | true =>
      cases h2 : isValidUuid ex.workout_id.val with
      | false => simp [h1, h2, exceptOk]
      | true =>
        cases hs : ex.sets.all (fun s => isValidUuid s.id.val &&
            isValidUuid s.exercise_id.val && isValidUuid s.workout_id.val) with
        | false =>
          have := validateSetsFrom_ok i 0 ex.sets
          rw [hs] at this
          cases hv : validateSetsFrom i 0 ex.sets with
          | ok u => rw [hv] at this; simp [exceptOk] at this
          | error e => simp [h1, h2, hv, exceptOk, hs]
        | true =>
          have := validateSetsFrom_ok i 0 ex.sets
          rw [hs] at this
          cases hv : validateSetsFrom i 0 ex.sets with
          | ok u => simp [h1, h2, hv, ih, hs]
          | error e => rw [hv] at this; simp [exceptOk] at this

lemma validate_workout_ids_ok (w : Workout) :
    exceptOk (validate_workout_ids w) = allTreeIdsValid w := by
  simp only [validate_workout_ids, allTreeIdsValid, Id.fromString]
  cases h0 : isValidUuid w.id.val with
  | false => simp [h0, exceptOk]
  | true => simp [h0, validateExercisesFrom_ok 0 w.exercises]

/-- C1: importing a parsed workout succeeds — it becomes
`current_workout`, the import modal closes and the error clears — exactly
when every identifier in the aggregate tree is a well-formed UUID; a
single malformed identifier anywhere makes the import set only the
validation error produced by `validate_workout_ids` (whose text names the
offending field and its exercise/set position) and leave every other
model field, in particular `current_workout`, unchanged. -/
theorem claim1_import_validates_all_ids (g : Gen) (m : Model) (w : Workout) :
    exceptOk (validate_workout_ids w) = allTreeIdsValid w ∧
    (allTreeIdsValid w = true →
      update g (.importWorkout (.ok w)) m =
        ({ m with current_workout := some w
                  showing_import := false
                  error_message := none }, [.render])) ∧
    (allTreeIdsValid w = false →
      update g (.importWorkout (.ok w)) m =
        ({ m with error_message := some ("Invalid workout data: " ++ exceptErr (validate_workout_ids w)) },
         [.render])) := by
  refine ⟨validate_workout_ids_ok w, ?_, ?_⟩
  · intro h
    have hok := validate_workout_ids_ok w
    rw [h] at hok
    cases hv : validate_workout_ids w with
    | ok u => simp [update, hv]
    | error e => rw [hv] at hok; simp [exceptOk] at hok
  · intro h
    have hok := validate_workout_ids_ok w
    rw [h] at hok
    cases hv : validate_workout_ids w with
    | ok u => rw [hv] at hok; simp [exceptOk] at hok
    | error e => simp [update, hv, exceptErr]

/-- A workout whose only set carries a malformed `exercise_id`
back-reference. -/
def badWorkout : Workout :=
  { workout0 with exercises :=
      [{ exercise0 with sets := [{ setIncomplete with exercise_id := ⟨"not-a-uuid"⟩ }] }] }

/-- C1 witness: a fully valid aggregate imports; one malformed
back-reference deep in the tree rejects the import with a positioned
error and leaves the model's active workout alone. -/
theorem claim1_import_validates_all_ids_witness :
    allTreeIdsValid workout0 = true ∧
    update gen0 (.importWorkout (.ok workout0)) Model.default =
      ({ Model.default with current_workout := some workout0
                            showing_import := false
                            error_message := none }, [.render]) ∧
    allTreeIdsValid badWorkout = false ∧
    update gen0 (.importWorkout (.ok badWorkout)) model0 =
      ({ model0 with error_message := some ("Invalid workout data: " ++ exceptErr (validate_workout_ids badWorkout)) },
       [.render]) ∧
    exceptErr (validate_workout_ids badWorkout) =
      "Invalid exercise_id in set at exercise 0 set 0: Invalid UUID: invalid format" :=
  ⟨by decide, (claim1_import_validates_all_ids gen0 Model.default workout0).2.1 (by decide),
   by decide, (claim1_import_validates_all_ids gen0 model0 badWorkout).2.2 (by decide),
   by decide⟩

/-! ## Claim C3 — `set_index` stays contiguous and dense -/

/-- `set_index` values are `k, k+1, ...` in list order. -/
def setsIndexedFrom (k : ℕ) : List ExerciseSet → Bool
  | [] => true
  | s :: rest => (s.set_index == (k : Int)) && setsIndexedFrom (k + 1) rest

/-- `set_index` values form the contiguous range `0..n-1` in list order. -/
def setsIndexed (l : List ExerciseSet) : Bool := setsIndexedFrom 0 l

def exerciseIndexed (ex : Exercise) : Bool := setsIndexed ex.sets

/-- The invariant over the whole model: every exercise of the active
workout has densely indexed sets. -/
def modelIndexed (m : Model) : Bool :=
  match m.current_workout with
  | some w => w.exercises.all exerciseIndexed
  | none => true

def isAddOrDeleteSet : Event → Bool
  | .addSet _ => true
  | .deleteSet _ _ => true
  | _ => false

lemma setsIndexedFrom_reindexFrom (l : List ExerciseSet) (k : ℕ) :
    setsIndexedFrom k (reindexFrom k l) = true := by
  induction l generalizing k with
  | nil => rfl
  | cons s rest ih => simp [reindexFrom, setsIndexedFrom, ih]

/-- Re-indexing any list of sets makes it densely indexed: this is what
every successful `DeleteSet` does to the remaining sets. -/
lemma setsIndexed_reindexSets (l : List ExerciseSet) : setsIndexed (reindexSets l) = true :=
  setsIndexedFrom_reindexFrom l 0

lemma setsIndexedFrom_append_singleton (l : List ExerciseSet) (k : ℕ) (s : ExerciseSet)
    (hl : setsIndexedFrom k l = true) (hs : s.set_index = ((k + l.length : ℕ) : Int)) :
    setsIndexedFrom k (l ++ [s]) = true := by
  induction l generalizing k with
  | nil =>
    simp only [List.length_nil, Nat.add_zero] at hs
    simp [setsIndexedFrom, hs]
  | cons t rest ih =>
    simp only [setsIndexedFrom, Bool.and_eq_true] at hl
    have hs' : s.set_index = (((k + 1) + rest.length : ℕ) : Int) := by
      rw [hs]
      congr 1
      simp [List.length_cons]
      ring
    simp [setsIndexedFrom, hl.1, ih (k + 1) hl.2 hs']

lemma exerciseIndexed_add_set (ex : Exercise) (i : Id) (h : exerciseIndexed ex = true) :
    exerciseIndexed (ex.add_set i) = true := by
  show setsIndexed (ex.sets ++ [ExerciseSet.new i ex.id ex.workout_id (ex.sets.length : Int)]) = true
  exact setsIndexedFrom_append_singleton ex.sets 0 _ h (by simp [ExerciseSet.new])

lemma updateFirstWhere_all {α : Type} (p q : α → Bool) (f : α → α) (l : List α)
    (hall : l.all q = true) (hf : ∀ a, q a = true → q (f a) = true) :
    (updateFirstWhere p f l).all q = true := by
  induction l with
  | nil => rfl
  | cons x xs ih =>
    simp only [List.all_cons, Bool.and_eq_true] at hall
    by_cases hp : p x = true
    · simp [updateFirstWhere, hp, hf x hall.1, hall.2]
    · simp only [updateFirstWhere, Bool.not_eq_true] at hp ⊢
      simp [hp, hall.1, ih hall.2]

lemma modelIndexed_set_error (m : Model) (msg : Option String) :
    modelIndexed { m with error_message := msg } = modelIndexed m := rfl

lemma modelIndexed_updateExercise (m : Model) (id : Id) (f : Exercise → Exercise)
    (hm : modelIndexed m = true) (hf : ∀ ex, exerciseIndexed ex = true → exerciseIndexed (f ex) = true) :
    modelIndexed (m.updateExercise id f) = true := by
  cases hw : m.current_workout with
  | none =>
    have heq : m.updateExercise id f = m := by simp [Model.updateExercise, hw]
    rw [heq]
    exact hm
  | some w =>
    rw [modelIndexed, hw] at hm
    simp only [Model.updateExercise, hw, modelIndexed]
    exact updateFirstWhere_all _ _ f w.exercises hm hf

/-- Single-step preservation: each `AddSet`/`DeleteSet` event keeps every
exercise of the model densely indexed. -/
lemma modelIndexed_step (g : Gen) (e : Event) (m : Model)
    (he : isAddOrDeleteSet e = true) (hm : modelIndexed m = true) :
    modelIndexed (update g e m).1 = true := by
  cases e
  case addSet s =>
    cases hid : Id.fromString s with
    | error e =>
      have hstep : (update g (.addSet s) m).1 =
          { m with error_message := some ("Invalid exercise ID: " ++ e) } := by
        simp [update, hid]
      rw [hstep, modelIndexed_set_error]
      exact hm
    | ok id =>
      by_cases hex : m.exerciseExists id = true
      · have hstep : (update g (.addSet s) m).1 =
            { m.updateExercise id (fun ex => ex.add_set g.setId) with error_message := none } := by
          simp [update, hid, hex]
        rw [hstep, modelIndexed_set_error]
        exact modelIndexed_updateExercise m id _ hm
          (fun ex h => exerciseIndexed_add_set ex g.setId h)
      · have hex2 : m.exerciseExists id = false := by simpa using hex
        have hstep : (update g (.addSet s) m).1 = m := by simp [update, hid, hex2]
        rw [hstep]
        exact hm
  case deleteSet s idx =>
    cases hid : Id.fromString s with
    | error e =>
      have hstep : (update g (.deleteSet s idx) m).1 =
          { m with error_message := some ("Invalid exercise ID: " ++ e) } := by
        simp [update, hid]
      rw [hstep, modelIndexed_set_error]
      exact hm
    | ok id =>
      cases hw : m.current_workout with
      | none =>
        have hstep : (update g (.deleteSet s idx) m).1 = m := by simp [update, hid, hw]
        rw [hstep]
        exact hm
      | some w =>
        cases hfind : w.exercises.find? (fun ex => ex.id == id) with
        | none =>
          have hstep : (update g (.deleteSet s idx) m).1 = m := by
            simp [update, hid, hw, hfind]
          rw [hstep]
          exact hm
        | some ex =>
          by_cases hlen : idx < ex.sets.length
          · have hstep : (update g (.deleteSet s idx) m).1 =
                m.updateExercise id
                  (fun e2 => { e2 with sets := reindexSets (e2.sets.eraseIdx idx) }) := by
              simp [update, hid, hw, hfind, hlen]
            rw [hstep]
            exact modelIndexed_updateExercise m id _ hm
              (fun ex2 _ => setsIndexed_reindexSets (ex2.sets.eraseIdx idx))
          · have hstep : (update g (.deleteSet s idx) m).1 =
                { m with error_message := some ("Cannot delete set: index " ++
                    toString idx ++ " is out of bounds (total sets: " ++
                    toString ex.sets.length ++ ")") } := by
              simp [update, hid, hw, hfind, hlen]
            rw [hstep, modelIndexed_set_error]
            exact hm
  all_goals simp [isAddOrDeleteSet] at he

/-- C3: over any sequence of `AddSet`/`DeleteSet` events the dense
`0..n-1` indexing of every exercise's sets is an invariant (so it holds
after every event of the sequence, each prefix being such a sequence
itself); and every successful set removal re-indexes the remaining sets
into exactly `0..n-1`, from whatever state they were in. -/
theorem claim3_set_index_dense_invariant (gevs : List (Gen × Event)) (m : Model)
    (l : List ExerciseSet) (i : ℕ)
    (h1 : ∀ p ∈ gevs, isAddOrDeleteSet p.2 = true) (h2 : modelIndexed m = true) :
    modelIndexed (runEvents gevs m) = true ∧
    setsIndexed (reindexSets (l.eraseIdx i)) = true := by
  refine ⟨?_, setsIndexed_reindexSets _⟩
  induction gevs generalizing m with
  | nil => exact h2
  | cons p rest ih =>
    show modelIndexed (runEvents rest (update p.1 p.2 m).1) = true
    exact ih _ (fun q hq => h1 q (List.mem_cons_of_mem p hq))
      (modelIndexed_step p.1 p.2 m (h1 p (List.mem_cons_self p rest)) h2)

/-- C3 witness: an `AddSet` on a dense one-set exercise, plus a re-index
of a removal. -/
theorem claim3_set_index_dense_invariant_witness :
    (∀ p ∈ [(gen0, Event.addSet uuidB)], isAddOrDeleteSet p.2 = true) ∧
    modelIndexed model0 = true ∧
    modelIndexed (runEvents [(gen0, Event.addSet uuidB)] model0) = true ∧
    setsIndexed (reindexSets ([setIncomplete].eraseIdx 0)) = true := by
  have h := claim3_set_index_dense_invariant [(gen0, Event.addSet uuidB)] model0
    [setIncomplete] 0 (by decide) (by decide)
  exact ⟨by decide, by decide, h.1, h.2⟩

/-! ## Claim C4 — the greedy plate fill -/

/-- Plates listed in descending (non-increasing) weight order. -/
def weightsDescending : List Plate → Bool
  | [] => true
  | [_] => true
  | p :: q :: rest => (q.weight ≤ p.weight) && weightsDescending (q :: rest)

lemma weightsDescending_cons (p : Plate) (l : List Plate)
    (hl : weightsDescending l = true) (hb : ∀ q ∈ l, q.weight ≤ p.weight) :
    weightsDescending (p :: l) = true := by
  cases l with
  | nil => rfl
  | cons q t => simp [weightsDescending, hb q (List.mem_cons_self q t), hl]

lemma weightsDescending_tail (p : Plate) (l : List Plate)
    (h : weightsDescending (p :: l) = true) : weightsDescending l = true := by
  cases l with
  | nil => rfl
  | cons q t =>
    simp only [weightsDescending, Bool.and_eq_true] at h
    exact h.2

lemma weightsDescending_head_bound (p : Plate) (l : List Plate)
    (h : weightsDescending (p :: l) = true) : ∀ q ∈ l, q.weight ≤ p.weight := by
  induction l generalizing p with
  | nil => intro q hq; cases hq
  | cons q t ih =>
    simp only [weightsDescending, Bool.and_eq_true] at h
    intro x hx
    rcases List.mem_cons.mp hx with rfl | hx
    · exact of_decide_eq_true h.1
    · exact le_trans (ih q h.2 x hx) (of_decide_eq_true h.1)

lemma weightsDescending_replicate_append (n : ℕ) (p : Plate) (l : List Plate)
    (hl : weightsDescending l = true) (hb : ∀ q ∈ l, q.weight ≤ p.weight) :
    weightsDescending (List.replicate n p ++ l) = true := by
  induction n with
  | zero => exact hl
  | succ n ih =>
    rw [List.replicate_succ, List.cons_append]
    refine weightsDescending_cons p _ ih ?_
    intro q hq
    rcases List.mem_append.mp hq with hq | hq
    · rw [List.eq_of_mem_replicate hq]
    · exact hb q hq

lemma greedyPlates_mem (cat : List Plate) (r : ℚ) (q : Plate)
    (h : q ∈ greedyPlates cat r) : q ∈ cat := by
  induction cat generalizing r with
  | nil => cases h
  | cons p rest ih =>
    simp only [greedyPlates] at h
    rcases List.mem_append.mp h with hq | hq
    · rw [List.eq_of_mem_replicate hq]
      exact List.mem_cons_self p rest
    · exact List.mem_cons_of_mem p (ih _ hq)

/-- A greedy fill over a descending catalog yields plates in descending
placement order. -/
lemma greedyPlates_descending (cat : List Plate) (r : ℚ)
    (hcat : weightsDescending cat = true) :
    weightsDescending (greedyPlates cat r) = true := by
  induction cat generalizing r with
  | nil => rfl
  | cons p rest ih =>
    show weightsDescending (List.replicate (spin p.weight r).1 p ++
      greedyPlates rest (spin p.weight r).2) = true
    refine weightsDescending_replicate_append _ p _
      (ih _ (weightsDescending_tail p rest hcat)) ?_
    intro q hq
    exact weightsDescending_head_bound p rest hcat q (greedyPlates_mem rest _ q hq)

lemma spin_step (w r : ℚ) (h : 1/100 < w ∧ w - 1/100 ≤ r) :
    spin w r = ((spin w (r - w)).1 + 1, (spin w (r - w)).2) := by
  rw [spin, dif_pos h]

lemma spin_stop (w r : ℚ) (h : ¬ (1/100 < w ∧ w - 1/100 ≤ r)) :
    spin w r = (0, r) := by
  rw [spin, dif_neg h]

/-- The inner loop's exact semantics: it subtracts whole plates
(`final = initial - count·w`, never backtracking) and stops at the first
point where the remaining weight drops below `w - 0.01`. -/
lemma spin_spec (w r : ℚ) (hw : 1/100 < w) :
    (spin w r).2 = r - ((spin w r).1 : ℚ) * w ∧ (spin w r).2 < w - 1/100 := by
  by_cases h : w - 1/100 ≤ r
  · have hrec := spin_spec w (r - w) hw
    rw [spin_step w r ⟨hw, h⟩]
    refine ⟨?_, hrec.2⟩
    rw [hrec.1]
    push_cast
    ring
  · rw [spin_stop w r (by tauto)]
    simpa using lt_of_not_le h
  termination_by (⌊(r - w + 1/100) / w⌋ + 1).toNat
  decreasing_by
    have hwpos : (0:ℚ) < w := lt_trans (by norm_num) hw
    have ha : (0:ℚ) ≤ (r - w + 1/100) / w := by
      apply div_nonneg _ (le_of_lt hwpos)
      linarith
    have hfl : (0:ℤ) ≤ ⌊(r - w + 1/100) / w⌋ := Int.floor_nonneg.mpr ha
    have harg : (r - w - w + 1/100) / w = (r - w + 1/100) / w - 1 := by
      field_simp
      ring
    rw [harg, Int.floor_sub_one]
    omega

/-- The claim's effective-weight formula: `target * percentage / 100` when
a percentage is supplied, else the target weight unchanged. -/
def effectiveWeight (t : ℚ) (pct : Option ℚ) : ℚ :=
  match pct with
  | some p => t * p / 100
  | none => t

lemma spin_45_90 : spin 45 (90:ℚ) = (2, 0) := by
  rw [spin_step 45 90 (by norm_num), show (90:ℚ) - 45 = 45 by norm_num,
    spin_step 45 45 (by norm_num), show (45:ℚ) - 45 = 0 by norm_num,
    spin_stop 45 0 (by norm_num)]

lemma greedy_standard_90 : greedyPlates Plate.standard 90 = [Plate.new 45, Plate.new 45] := by
  have h35 : spin 35 (0:ℚ) = (0, 0) := spin_stop _ _ (by norm_num)
  have h25 : spin 25 (0:ℚ) = (0, 0) := spin_stop _ _ (by norm_num)
  have h10 : spin 10 (0:ℚ) = (0, 0) := spin_stop _ _ (by norm_num)
  have h5 : spin 5 (0:ℚ) = (0, 0) := spin_stop _ _ (by norm_num)
  have h52 : spin (5/2) (0:ℚ) = (0, 0) := spin_stop _ _ (by norm_num)
  simp [greedyPlates, Plate.standard, Plate.new, spin_45_90, h35, h25, h10, h5, h52,
    List.replicate]

lemma description_2x45 :
    PlateCalculation.formatted_plate_description
      { total_weight := 225, bar_type := BarType.new "Bar" 45,
        plates := [Plate.new 45, Plate.new 45], weight_unit := .lb } = "2x" ++ "45lb" := by
  have hr : rustRound ((45:ℚ) * 100) = 4500 := by
    rw [rustRound, if_pos (by norm_num : (0:ℚ) ≤ 45 * 100)]
    norm_num
  have he : ([4500, 4500] : List Int).eraseDups = [4500] := rfl
  have hms : ([4500] : List Int).mergeSort (fun a b => b ≤ a) = [4500] :=
    List.mergeSort_singleton 4500
  simp only [PlateCalculation.formatted_plate_description, Plate.new, List.map_cons,
    List.map_nil, hr, he, hms, List.countP_cons, List.countP_nil]
  rfl

/-- C4: once validation passes, the effective weight follows the claim's
formula, a negative per-side weight is rejected with the bar-weight error
and a cleared result, and otherwise the stored calculation is the greedy
largest-first fill over the pound catalog; the greedy output is always in
descending placement order, the inner loop subtracts whole plates while
the remainder is at least `weight - 0.01` and never backtracks; and
`target = 225, bar = 45`, no percentage, stores exactly two 45-weight
plates whose description contains `"45lb"`. -/
theorem claim4_plate_greedy_fill (g : Gen) (m : Model) (t b r w : ℚ) (pct : Option ℚ)
    (ht : 0 < t) (hb : 0 < b) (hpct : ∀ p, pct = some p → 0 ≤ p ∧ p ≤ 100)
    (hw : 1/100 < w) :
    ((effectiveWeight t pct - b) / 2 < 0 →
      update g (.calculatePlates t b pct) m =
        ({ m with error_message := some "Target weight is less than bar weight", plate_calculation := none }, [.render])) ∧
    (0 ≤ (effectiveWeight t pct - b) / 2 →
      update g (.calculatePlates t b pct) m =
        ({ m with plate_calculation := some { total_weight := effectiveWeight t pct, bar_type := BarType.new "Bar" b, plates := greedyPlates Plate.standard ((effectiveWeight t pct - b) / 2), weight_unit := .lb } }, [.render])) ∧
    weightsDescending (greedyPlates Plate.standard r) = true ∧
    ((spin w r).2 = r - ((spin w r).1 : ℚ) * w ∧ (spin w r).2 < w - 1/100) ∧
    update g (.calculatePlates 225 45 none) m =
      ({ m with plate_calculation := some { total_weight := 225, bar_type := BarType.new "Bar" 45, plates := [Plate.new 45, Plate.new 45], weight_unit := .lb } }, [.render]) ∧
    PlateCalculation.formatted_plate_description
      { total_weight := 225, bar_type := BarType.new "Bar" 45,
        plates := [Plate.new 45, Plate.new 45], weight_unit := .lb } = "2x" ++ "45lb" := by
  have h1 : ¬ (t ≤ 0) := not_le.mpr ht
  have h2 : ¬ (b ≤ 0) := not_le.mpr hb
  refine ⟨?_, ?_, greedyPlates_descending _ _ (by norm_num [weightsDescending, Plate.standard, Plate.new]), spin_spec w r hw, ?_, description_2x45⟩
  · intro hneg
    cases pct with
    | none =>
      have hneg2 : (t - b) / 2 < 0 := by simpa [effectiveWeight] using hneg
      simp [update, h1, h2, perform_plate_calculation, hneg2, effectiveWeight]
    | some p =>
      obtain ⟨hp0, hp100⟩ := hpct p rfl
      have hnotout : ¬ (p < 0 ∨ 100 < p) := by
        rw [not_or]
        exact ⟨not_lt.mpr hp0, not_lt.mpr hp100⟩
      have heq : t * (p / 100) = t * p / 100 := by ring
      have hneg2 : (t * (p / 100) - b) / 2 < 0 := by
        rw [heq]
        simpa [effectiveWeight] using hneg
      simp [update, h1, h2, hnotout, perform_plate_calculation, hneg2, effectiveWeight]
  · intro hpos
    cases pct with
    | none =>
      have hpos2 : ¬ ((t - b) / 2 < 0) := by
        rw [not_lt]
        simpa [effectiveWeight] using hpos
      simp [update, h1, h2, perform_plate_calculation, hpos2, effectiveWeight]
    | some p =>
      obtain ⟨hp0, hp100⟩ := hpct p rfl
      have hnotout : ¬ (p < 0 ∨ 100 < p) := by
        rw [not_or]
        exact ⟨not_lt.mpr hp0, not_lt.mpr hp100⟩
      have heq : t * (p / 100) = t * p / 100 := by ring
      have hpos2 : ¬ ((t * (p / 100) - b) / 2 < 0) := by
        rw [not_lt, heq]
        simpa [effectiveWeight] using hpos
      simp [update, h1, h2, hnotout, perform_plate_calculation, hpos2, effectiveWeight, heq]
      simpa [effectiveWeight] using hpos
  · have c1 : ¬ ((225:ℚ) ≤ 0) := by norm_num
    have c2 : ¬ ((45:ℚ) ≤ 0) := by norm_num
    have h90 : ((225:ℚ) - 45) / 2 = 90 := by norm_num
    have c3 : ¬ (((225:ℚ) - 45) / 2 < 0) := by norm_num
    simp [update, c1, c2, perform_plate_calculation, c3, h90, greedy_standard_90]

/-- C4 witness: the validation-passed instance `225 / 45 / no percentage`
with per-side weight 90. -/
theorem claim4_plate_greedy_fill_witness :
    (0 : ℚ) < 225 ∧ (0 : ℚ) < 45 ∧ (1/100 : ℚ) < 45 ∧
    weightsDescending (greedyPlates Plate.standard 90) = true ∧
    ((spin 45 (90:ℚ)).2 = 90 - ((spin 45 (90:ℚ)).1 : ℚ) * 45 ∧
      (spin 45 (90:ℚ)).2 < 45 - 1/100) ∧
    update gen0 (.calculatePlates 225 45 none) Model.default =
      ({ Model.default with plate_calculation := some { total_weight := 225, bar_type := BarType.new "Bar" 45, plates := [Plate.new 45, Plate.new 45], weight_unit := .lb } }, [.render]) ∧
    PlateCalculation.formatted_plate_description
      { total_weight := 225, bar_type := BarType.new "Bar" 45,
        plates := [Plate.new 45, Plate.new 45], weight_unit := .lb } = "2x" ++ "45lb" := by
  have h := claim4_plate_greedy_fill gen0 Model.default 225 45 90 45 none
    (by norm_num) (by norm_num) (by simp) (by norm_num)
  exact ⟨by norm_num, by norm_num, by norm_num, h.2.2.1, h.2.2.2.1, h.2.2.2.2.1,
    h.2.2.2.2.2⟩

end Thiccc
